import Mathlib

/-!
Verification development for the `auto-commit` program.

The program has two source files:
  * `src/lib.rs` — the token budgeter `truncate_to_n_tokens` and the model
    selection helper `get_model_from_env`;
  * `src/main.rs` — the pipeline: environment check, git queries, request
    construction, response extraction, confirmation and the commit step.

Text is embedded as `List Char` (a Rust `&str` is a sequence of Unicode
scalar values; byte identity of UTF-8 encoded tokens coincides with
character-sequence identity). Machine `usize` limits are embedded as `Nat`.
-/

namespace AutoCommit

/-- Unicode `White_Space` property, the predicate used by Rust's
`char::is_whitespace` and hence by `str::split_whitespace`. The code points
are U+0009–U+000D, U+0020, U+0085, U+00A0, U+1680, U+2000–U+200A, U+2028,
U+2029, U+202F, U+205F and U+3000. -/
def isWs (c : Char) : Bool :=
  let n := c.toNat
  (0x09 ≤ n && n ≤ 0x0D) || n == 0x20 || n == 0x85 || n == 0xA0 ||
    n == 0x1680 || (0x2000 ≤ n && n ≤ 0x200A) || n == 0x2028 ||
    n == 0x2029 || n == 0x202F || n == 0x205F || n == 0x3000

theorem length_dropWhile_le (p : Char → Bool) :
    (l : List Char) → (l.dropWhile p).length ≤ l.length
  | [] => Nat.le_refl _
  | c :: cs => by
    simp only [List.dropWhile]
    cases p c
    · simp
    · simpa using Nat.le_succ_of_le (length_dropWhile_le p cs)

/-- Embedding of Rust's `str::split_whitespace`: split the character
sequence at runs of Unicode whitespace, discarding empty pieces, so the
result is the list of (non-empty, whitespace-free) tokens in order. -/
def splitWhitespace : List Char → List (List Char)
  | [] => []
  | c :: cs =>
    if isWs c then splitWhitespace cs
    else (c :: cs.takeWhile (fun d => !isWs d)) ::
      splitWhitespace (cs.dropWhile (fun d => !isWs d))
termination_by l => l.length
decreasing_by
  · simp
  · exact Nat.lt_succ_of_le (length_dropWhile_le _ cs)

/-- Embedding of `Vec<&str>::join(" ")`: interleave a single space
character between consecutive tokens. -/
def joinSpace : List (List Char) → List Char
  | [] => []
  | [t] => t
  | t :: ts => t ++ ' ' :: joinSpace ts

/-- Embedding of `truncate_to_n_tokens` (src/lib.rs lines 1–3):
`text.split_whitespace().take(limit).collect::<Vec<_>>().join(" ")`. -/
def truncate_to_n_tokens (text : List Char) (limit : Nat) : List Char :=
  joinSpace ((splitWhitespace text).take limit)

/-- Embedding of `get_model_from_env` (src/lib.rs lines 5–7): the value of
the `AUTO_COMMIT_MODEL` environment variable when present, otherwise the
default model identifier. The variable's state is passed explicitly:
`none` means unset, `some v` means set to the string `v`. -/
def get_model_from_env (auto_commit_model : Option String) : String :=
  match auto_commit_model with
  | some v => v
  | none => "gpt-4.1-nano"

/- Token lemmas for the budgeter. -/

theorem takeWhile_append_of_all {p : Char → Bool} :
    ∀ {cs : List Char}, (∀ c ∈ cs, p c = true) →
      ∀ rest : List Char, (cs ++ rest).takeWhile p = cs ++ rest.takeWhile p
  | [], _, _ => rfl
  | c :: cs, h, rest => by
    have hc : p c = true := h c (List.mem_cons_self c cs)
    have hcs : ∀ x ∈ cs, p x = true := fun x hx => h x (List.mem_cons_of_mem c hx)
    simp only [List.cons_append, List.takeWhile_cons, hc, if_true]
    rw [takeWhile_append_of_all hcs rest]

theorem dropWhile_append_of_all {p : Char → Bool} :
    ∀ {cs : List Char}, (∀ c ∈ cs, p c = true) →
      ∀ rest : List Char, (cs ++ rest).dropWhile p = rest.dropWhile p
  | [], _, _ => rfl
  | c :: cs, h, rest => by
    have hc : p c = true := h c (List.mem_cons_self c cs)
    have hcs : ∀ x ∈ cs, p x = true := fun x hx => h x (List.mem_cons_of_mem c hx)
    simp only [List.cons_append, List.dropWhile_cons, hc, if_true]
    exact dropWhile_append_of_all hcs rest

/-- Every token produced by `splitWhitespace` is non-empty and contains no
whitespace character. -/
theorem splitWhitespace_tokens_wf :
    ∀ l : List Char, ∀ t ∈ splitWhitespace l, t ≠ [] ∧ ∀ c ∈ t, isWs c = false := by
  intro l
  induction l using splitWhitespace.induct with
  | case1 => intro t ht; simp [splitWhitespace] at ht
  | case2 c cs hws ih =>
    intro t ht
    rw [splitWhitespace, if_pos hws] at ht
    exact ih t ht
  | case3 c cs hws ih =>
    intro t ht
    rw [splitWhitespace, if_neg hws] at ht
    rcases List.mem_cons.mp ht with h | h
    · subst h
      refine ⟨List.cons_ne_nil _ _, ?_⟩
      intro x hx
      rcases List.mem_cons.mp hx with h | h
      · subst h; exact Bool.of_not_eq_true hws
      · have := List.mem_takeWhile_imp h
        simpa using this
    · exact ih t h

/-- Splitting a non-empty whitespace-free token followed by a space and a
remainder yields that token followed by the split of the remainder. -/
theorem splitWhitespace_token_space (tok rest : List Char)
    (hne : tok ≠ []) (hwf : ∀ c ∈ tok, isWs c = false) :
    splitWhitespace (tok ++ ' ' :: rest) = tok :: splitWhitespace rest := by
  obtain ⟨c, cs, rfl⟩ := List.exists_cons_of_ne_nil hne
  have hc : isWs c = false := hwf c (List.mem_cons_self c cs)
  have hcs : ∀ x ∈ cs, (fun d => !isWs d) x = true := by
    intro x hx
    simp [hwf x (List.mem_cons_of_mem c hx)]
  have hsp : isWs ' ' = true := by decide
  rw [List.cons_append, splitWhitespace]
  rw [if_neg (by simp [hc])]
  rw [takeWhile_append_of_all hcs, dropWhile_append_of_all hcs]
  have h1 : (' ' :: rest).takeWhile (fun d => !isWs d) = [] := by
    simp [List.takeWhile_cons, hsp]
  have h2 : (' ' :: rest).dropWhile (fun d => !isWs d) = ' ' :: rest := by
    simp [List.dropWhile_cons, hsp]
  rw [h1, h2, List.append_nil]
  rw [splitWhitespace, if_pos hsp]

/-- Splitting a single non-empty whitespace-free token yields exactly that
token. -/
theorem splitWhitespace_single_token (tok : List Char)
    (hne : tok ≠ []) (hwf : ∀ c ∈ tok, isWs c = false) :
    splitWhitespace tok = [tok] := by
  obtain ⟨c, cs, rfl⟩ := List.exists_cons_of_ne_nil hne
  have hc : isWs c = false := hwf c (List.mem_cons_self c cs)
  have hcs : ∀ x ∈ cs, (fun d => !isWs d) x = true := by
    intro x hx
    simp [hwf x (List.mem_cons_of_mem c hx)]
  rw [splitWhitespace, if_neg (by simp [hc])]
  rw [List.takeWhile_eq_self_iff.mpr hcs, List.dropWhile_eq_nil_iff.mpr hcs]
  rw [splitWhitespace]

/-- Joining well-formed tokens with single spaces and re-splitting recovers
exactly the token list. -/
theorem splitWhitespace_joinSpace :
    ∀ ts : List (List Char),
      (∀ t ∈ ts, t ≠ [] ∧ ∀ c ∈ t, isWs c = false) →
      splitWhitespace (joinSpace ts) = ts
  | [], _ => by rw [joinSpace, splitWhitespace]
  | [t], h => by
    have := h t (List.mem_cons_self t [])
    simpa [joinSpace] using splitWhitespace_single_token t this.1 this.2
  | t :: t2 :: ts, h => by
    have ht := h t (List.mem_cons_self t (t2 :: ts))
    have hrest : ∀ x ∈ t2 :: ts, x ≠ [] ∧ ∀ c ∈ x, isWs c = false :=
      fun x hx => h x (List.mem_cons_of_mem t hx)
    show splitWhitespace (t ++ ' ' :: joinSpace (t2 :: ts)) = t :: t2 :: ts
    rw [splitWhitespace_token_space t _ ht.1 ht.2]
    rw [splitWhitespace_joinSpace (t2 :: ts) hrest]

/-- The token sequence of a truncation is the `limit`-prefix of the token
sequence of the input. -/
theorem splitWhitespace_truncate (text : List Char) (limit : Nat) :
    splitWhitespace (truncate_to_n_tokens text limit) =
      (splitWhitespace text).take limit := by
  unfold truncate_to_n_tokens
  apply splitWhitespace_joinSpace
  intro t ht
  exact splitWhitespace_tokens_wf text t (List.mem_of_mem_take ht)

/-- C2: for every text T and limit L, `truncate_to_n_tokens T L` contains at
most L whitespace-delimited tokens, and whenever T contains at most L tokens
the token sequence of the result equals the token sequence of T. -/
theorem C2_truncate_token_count (T : List Char) (L : Nat) :
    (splitWhitespace (truncate_to_n_tokens T L)).length ≤ L ∧
    ((splitWhitespace T).length ≤ L →
      splitWhitespace (truncate_to_n_tokens T L) = splitWhitespace T) := by
  rw [splitWhitespace_truncate]
  constructor
  · rw [List.length_take]
    exact Nat.min_le_left _ _
  · intro h
    exact List.take_of_length_le h

/-- Witness for C2 at the concrete text "a b" and limit 5. -/
theorem C2_truncate_token_count_witness :
    (splitWhitespace (truncate_to_n_tokens ['a', ' ', 'b'] 5)).length ≤ 5 ∧
    splitWhitespace (truncate_to_n_tokens ['a', ' ', 'b'] 5) =
      splitWhitespace ['a', ' ', 'b'] :=
  ⟨(C2_truncate_token_count ['a', ' ', 'b'] 5).1,
   (C2_truncate_token_count ['a', ' ', 'b'] 5).2 (by simp +decide [splitWhitespace])⟩

/-- C7: truncation is idempotent under re-application with the same or a
larger limit. -/
theorem C7_truncate_idempotent (T : List Char) (L M : Nat) (h : L ≤ M) :
    truncate_to_n_tokens (truncate_to_n_tokens T L) M = truncate_to_n_tokens T L := by
  rw [show truncate_to_n_tokens (truncate_to_n_tokens T L) M =
        joinSpace ((splitWhitespace (truncate_to_n_tokens T L)).take M) from rfl]
  rw [splitWhitespace_truncate, List.take_take, Nat.min_eq_right h]
  rfl

/-- Witness for C7 at the concrete text "a b c", limits 2 and 3. -/
theorem C7_truncate_idempotent_witness :
    truncate_to_n_tokens (truncate_to_n_tokens ['a', ' ', 'b', ' ', 'c'] 2) 3 =
      truncate_to_n_tokens ['a', ' ', 'b', ' ', 'c'] 2 :=
  C7_truncate_idempotent ['a', ' ', 'b', ' ', 'c'] 2 3 (by decide)

/-- C8: truncation never splits a token: every whitespace-delimited token of
the output is identical (as a character sequence, hence byte-identical in
UTF-8) to some token of the input. -/
theorem C8_truncate_no_token_split (T : List Char) (L : Nat) (t : List Char)
    (h : t ∈ splitWhitespace (truncate_to_n_tokens T L)) :
    t ∈ splitWhitespace T := by
  rw [splitWhitespace_truncate] at h
  exact List.mem_of_mem_take h

/-- Witness for C8 at the concrete text "ab cd" and limit 1. -/
theorem C8_truncate_no_token_split_witness :
    ['a', 'b'] ∈ splitWhitespace ['a', 'b', ' ', 'c', 'd'] :=
  C8_truncate_no_token_split ['a', 'b', ' ', 'c', 'd'] 1 ['a', 'b']
    (by simp +decide [truncate_to_n_tokens, splitWhitespace, joinSpace])

/- Pipeline model (src/main.rs). -/

/-- Result of decoding a byte output: either valid UTF-8 with the decoded
string, or invalid UTF-8. One per external byte-producing operation. -/
inductive Utf8Out where
  | valid (s : String)
  | invalid
deriving DecidableEq

/-- Embedding of the pattern
`match str::from_utf8(bytes) with Ok(v) => v, Err(e) => ""` used for the
staged diff, the changed-file list and the context diff
(src/main.rs lines 91–97, 130–136, 147–153). -/
def decodeOrEmpty : Utf8Out → String
  | .valid s => s
  | .invalid => ""

/-- Embedding of `str::from_utf8(bytes).unwrap_or(d)` (src/main.rs line 113). -/
def decodeOr (o : Utf8Out) (d : String) : String :=
  match o with
  | .valid s => s
  | .invalid => d

/-- Embedding of `str::trim`: strip Unicode whitespace from both ends. -/
def trimWs (s : String) : String :=
  ⟨((s.data.dropWhile isWs).reverse.dropWhile isWs).reverse⟩

/-- JSON values, modelling `serde_json::Value`. An arguments payload that is
not valid JSON text is modelled as `none` at the use site. -/
inductive Json where
  | null
  | bool (b : Bool)
  | num (n : Int)
  | str (s : String)
  | arr (xs : List Json)
  | obj (fields : List (String × Json))

/-- Embedding of `struct Commit` (src/main.rs lines 52–59): a title and a
description, both strings. -/
structure Commit where
  title : String
  description : String
deriving DecidableEq

/-- Embedding of `Commit::to_string` (src/main.rs lines 61–65):
`format!("{}\n\n{}", title, description)`. -/
def Commit.to_string (c : Commit) : String :=
  c.title ++ "\n\n" ++ c.description

/-- Field scan of serde's derived `Deserialize` for `Commit`: walk the
object fields in order, recording the string values of `title` and
`description`, failing on a duplicate field or a non-string value, ignoring
unknown fields (serde's default); both fields must be present at the end. -/
def commitFromFields :
    List (String × Json) → Option String → Option String → Option Commit
  | [], some t, some d => some ⟨t, d⟩
  | [], _, _ => none
  | (k, v) :: rest, tAcc, dAcc =>
    if k = "title" then
      match tAcc, v with
      | none, .str s => commitFromFields rest (some s) dAcc
      | _, _ => none
    else if k = "description" then
      match dAcc, v with
      | none, .str s => commitFromFields rest tAcc (some s)
      | _, _ => none
    else commitFromFields rest tAcc dAcc

/-- Embedding of `serde_json::from_str::<Commit>` applied to the arguments
payload (src/main.rs line 268): a payload that is not valid JSON (`none`)
fails, and a valid payload must be an object carrying string-typed `title`
and `description` fields. -/
def from_str_commit : Option Json → Option Commit
  | some (.obj fields) => commitFromFields fields none none
  | _ => none

/-- Embedding of `FunctionCall` from the completion response: the invoked
function's name and its arguments payload (the JSON parse result of the
argument string; `none` models argument text that is not valid JSON). -/
structure FunctionCall where
  name : String
  arguments : Option Json

/-- A response message, carrying an optional function call. -/
structure ChatMessage where
  function_call : Option FunctionCall

/-- One completion choice. -/
structure Choice where
  message : ChatMessage

/-- A completion response: a list of choices. -/
structure CompletionResponse where
  choices : List Choice

/-- Embedding of the extraction at src/main.rs lines 267–270: take the
function call of `choices[0]` — its name is never examined — and parse its
arguments as a `Commit`. `none` models any of the three panics (no choice,
no function call, parse failure). -/
def extractCommit (resp : CompletionResponse) : Option Commit :=
  match resp.choices.head? with
  | none => none
  | some choice =>
    match choice.message.function_call with
    | none => none
    | some fc => from_str_commit fc.arguments

/-- Process outcome. `ok` is exit status 0; `exited c` is
`std::process::exit(c)`; `panicked` is an `expect`/`unwrap`/index panic
(non-zero exit status 101); `errExit` is `main` returning `Err(())`
(non-zero exit status 1). -/
inductive Outcome where
  | ok
  | exited (code : Nat)
  | panicked
  | errExit
deriving DecidableEq

/-- Whether an outcome is a non-zero process exit. -/
def Outcome.nonzero : Outcome → Bool
  | .ok => false
  | .exited c => c != 0
  | .panicked => true
  | .errExit => true

/-- Embedding of the `Cli` flags consumed by the pipeline (src/main.rs
lines 31–50). Verbosity only gates the spinner UI and logging, which carry
no pipeline decisions. -/
structure Cli where
  dry_run : Bool
  review : Bool
  force : Bool
deriving DecidableEq

/-- The process environment: each variable is `none` when unset. -/
structure Env where
  openai_api_key : Option String
  auto_commit_model : Option String
deriving DecidableEq

/-- Result of the spawned `git commit` child process: its exit code and
captured stdout. -/
structure CommitProcResult where
  exit_code : Nat
  stdout : Utf8Out
deriving DecidableEq

/-- Behavior of the external collaborators for one run, passed explicitly.
Each `Option` is `none` when the underlying operation itself fails: a git
command that cannot run, a network error from the completion request, a
failed interactive ask, a failed spawn/wait of `git commit`. `answer_no`
is `some true` when the user answers "no" to the confirmation question. -/
structure World where
  staged_diff : Option Utf8Out
  is_repo : Option Utf8Out
  name_only : Option Utf8Out
  diff2 : Option Utf8Out
  completion : Option CompletionResponse
  answer_no : Option Bool
  commit_result : Option CommitProcResult

/-- Observable effects and final outcome of one run of `main`.
`warned_empty` records the empty-staged-diff warning; `request_model` and
`request_context` record what is handed to the completion request when it is
made; `confirm_asked`/`confirm_default_yes` record the interactive question
and its declared default; `printed_dry` records the message emitted on the
dry-run path; `commit_attempts` counts spawns of `git commit`. -/
structure RunResult where
  outcome : Outcome
  warned_empty : Bool
  network_attempted : Bool
  request_model : Option String
  request_context : Option String
  confirm_asked : Bool
  confirm_default_yes : Bool
  printed_dry : Option String
  commit_attempts : Nat
  logged_commit_stdout : Option String
deriving DecidableEq

/-- Embedding of `const MAX_DIFF_TOKENS: usize = 20_000` (src/main.rs
line 67). -/
def MAX_DIFF_TOKENS : Nat := 20000

/-- String-level wrapper of the token budgeter, as applied at
src/main.rs line 156. -/
def truncate_str (s : String) (limit : Nat) : String :=
  ⟨truncate_to_n_tokens s.data limit⟩

/-- Embedding of the commit step (src/main.rs lines 297–319): spawn
`git commit [-e] -F -`, pipe the rendered message, wait. A spawn/wait
failure panics; otherwise git's captured stdout is decoded with `unwrap`
(panicking on invalid UTF-8) and logged, and `main` returns `Ok(())`
without inspecting git's exit code. -/
def doCommit (w : World) (warned : Bool) (model ctx : String)
    (asked : Bool) : RunResult :=
  match w.commit_result with
  | none => ⟨.panicked, warned, true, some model, some ctx, asked, asked, none, 1, none⟩
  | some cr =>
    match cr.stdout with
    | .invalid => ⟨.panicked, warned, true, some model, some ctx, asked, asked, none, 1, none⟩
    | .valid s => ⟨.ok, warned, true, some model, some ctx, asked, asked, none, 1, some s⟩

/-- Embedding of src/main.rs lines 155–319 after the git outputs are
decoded: build the bounded context, send the completion request, extract
the proposal, then dry-run / confirm / commit. -/
def afterDecodes (cli : Cli) (w : World) (model : String) (warned : Bool)
    (files_changed diff_output : String) : RunResult :=
  let combined := "Changed files:\n" ++ files_changed ++ "\n\nDiff:\n" ++ diff_output
  let ctx := truncate_str combined MAX_DIFF_TOKENS
  match w.completion with
  | none => ⟨.panicked, warned, true, some model, some ctx, false, false, none, 0, none⟩
  | some resp =>
    match extractCommit resp with
    | none => ⟨.panicked, warned, true, some model, some ctx, false, false, none, 0, none⟩
    | some cm =>
      if cli.dry_run then
        ⟨.ok, warned, true, some model, some ctx, false, false, some cm.to_string, 0, none⟩
      else if cli.force then
        doCommit w warned model ctx false
      else
        match w.answer_no with
        | none => ⟨.panicked, warned, true, some model, some ctx, true, true, none, 0, none⟩
        | some isNo =>
          if isNo then
            ⟨.exited 1, warned, true, some model, some ctx, true, true, none, 0, none⟩
          else doCommit w warned model ctx true

/-- Embedding of `main` (src/main.rs lines 70–320): check the credential,
query git (staged diff for the emptiness warning, repository check,
changed-file list, context diff), then hand over to `afterDecodes`. -/
def runMain (env : Env) (cli : Cli) (w : World) : RunResult :=
  match env.openai_api_key with
  | none => ⟨.exited 1, false, false, none, none, false, false, none, 0, none⟩
  | some _tok =>
    match w.staged_diff with
    | none => ⟨.errExit, false, false, none, none, false, false, none, 0, none⟩
    | some sd =>
      let warned := (decodeOrEmpty sd).isEmpty
      match w.is_repo with
      | none => ⟨.errExit, warned, false, none, none, false, false, none, 0, none⟩
      | some ir =>
        if trimWs (decodeOr ir "") = "true" then
          match w.name_only with
          | none => ⟨.errExit, warned, false, none, none, false, false, none, 0, none⟩
          | some no =>
            match w.diff2 with
            | none => ⟨.errExit, warned, false, none, none, false, false, none, 0, none⟩
            | some d2 =>
              afterDecodes cli w (get_model_from_env env.auto_commit_model) warned
                (decodeOrEmpty no) (decodeOrEmpty d2)
        else ⟨.exited 1, warned, false, none, none, false, false, none, 0, none⟩

/-- Whatever branch `afterDecodes` takes, the model identifier handed to the
completion request is recorded as `some model`. -/
theorem afterDecodes_request_model (cli : Cli) (w : World) (model : String)
    (warned : Bool) (f d : String) :
    (afterDecodes cli w model warned f d).request_model = some model := by
  simp only [afterDecodes, doCommit]
  repeat first
  | rfl
  | split

/-- Replace the staged-diff query result. -/
def World.withStaged (w : World) (v : Option Utf8Out) : World :=
  ⟨v, w.is_repo, w.name_only, w.diff2, w.completion, w.answer_no, w.commit_result⟩

/-- Replace the changed-file-list query result. -/
def World.withNameOnly (w : World) (v : Option Utf8Out) : World :=
  ⟨w.staged_diff, w.is_repo, v, w.diff2, w.completion, w.answer_no, w.commit_result⟩

/-- Replace the context-diff query result. -/
def World.withDiff2 (w : World) (v : Option Utf8Out) : World :=
  ⟨w.staged_diff, w.is_repo, w.name_only, v, w.completion, w.answer_no, w.commit_result⟩

/-- C5: with `OPENAI_API_KEY` unset the run terminates at once with exit
status 1: no network call to the completion service is attempted and no
commit mutation occurs. -/
theorem C5_missing_api_key_fails_fast (m : Option String) (cli : Cli) (w : World) :
    runMain ⟨none, m⟩ cli w =
      ⟨.exited 1, false, false, none, none, false, false, none, 0, none⟩ := rfl

/-- C10: invalid UTF-8 bytes from the staged-diff query, the changed-files
query or the context-diff query do not fail the run: each is replaced by the
empty string, and the run is identical to one where the corresponding query
produced empty output. -/
theorem C10_invalid_utf8_treated_as_empty (env : Env) (cli : Cli) (w : World) :
    runMain env cli (w.withStaged (some .invalid)) =
      runMain env cli (w.withStaged (some (.valid ""))) ∧
    runMain env cli (w.withNameOnly (some .invalid)) =
      runMain env cli (w.withNameOnly (some (.valid ""))) ∧
    runMain env cli (w.withDiff2 (some .invalid)) =
      runMain env cli (w.withDiff2 (some (.valid ""))) := by
  obtain ⟨key, m⟩ := env
  obtain ⟨sd, ir, no, d2, comp, ans, cr⟩ := w
  refine ⟨?_, ?_, ?_⟩ <;> cases key <;> rfl

/-- C3: with `--dry-run` set, a run that reaches a parsed proposal emits the
rendered message — title, a blank line, then the description — and stops
with exit status 0; no commit mutation is attempted. -/
theorem C3_dry_run_prints_and_stops (tok : String) (m : Option String)
    (review force : Bool) (sd ir no d2 : Utf8Out) (resp : CompletionResponse)
    (ans : Option Bool) (cr : Option CommitProcResult) (cm : Commit)
    (hrepo : trimWs (decodeOr ir "") = "true")
    (hex : extractCommit resp = some cm) :
    runMain ⟨some tok, m⟩ ⟨true, review, force⟩
        ⟨some sd, some ir, some no, some d2, some resp, ans, cr⟩ =
      ⟨.ok, (decodeOrEmpty sd).isEmpty, true, some (get_model_from_env m),
        some (truncate_str ("Changed files:\n" ++ decodeOrEmpty no ++
          "\n\nDiff:\n" ++ decodeOrEmpty d2) MAX_DIFF_TOKENS),
        false, false, some (cm.title ++ "\n\n" ++ cm.description), 0, none⟩ := by
  simp only [runMain]
  rw [if_pos hrepo]
  simp only [afterDecodes, hex, Commit.to_string, if_true]

/-- Witness for C3 at a concrete environment, response and world. -/
theorem C3_dry_run_prints_and_stops_witness :
    runMain ⟨some "k", none⟩ ⟨true, false, false⟩
        ⟨some (.valid "x"), some (.valid "true"), some (.valid "f"), some (.valid "x"),
          some ⟨[⟨⟨some ⟨"commit",
            some (.obj [("title", .str "T"), ("description", .str "D")])⟩⟩⟩]⟩,
          none, none⟩ =
      ⟨.ok, false, true, some "gpt-4.1-nano",
        some (truncate_str "Changed files:\nf\n\nDiff:\nx" MAX_DIFF_TOKENS),
        false, false, some "T\n\nD", 0, none⟩ := by
  have h := C3_dry_run_prints_and_stops "k" none false false
    (.valid "x") (.valid "true") (.valid "f") (.valid "x")
    ⟨[⟨⟨some ⟨"commit", some (.obj [("title", .str "T"), ("description", .str "D")])⟩⟩⟩]⟩
    none none ⟨"T", "D"⟩ (by decide) rfl
  simpa using h

/-- C4: without `--force` (and not in dry-run), the run asks an interactive
yes/no confirmation whose declared default answer is "yes"; when the user
answers "no" the process exits with status 1 and no commit mutation is
attempted. -/
theorem C4_confirmation_declined_aborts (tok : String) (m : Option String)
    (review : Bool) (sd ir no d2 : Utf8Out) (resp : CompletionResponse)
    (cr : Option CommitProcResult) (cm : Commit)
    (hrepo : trimWs (decodeOr ir "") = "true")
    (hex : extractCommit resp = some cm) :
    runMain ⟨some tok, m⟩ ⟨false, review, false⟩
        ⟨some sd, some ir, some no, some d2, some resp, some true, cr⟩ =
      ⟨.exited 1, (decodeOrEmpty sd).isEmpty, true, some (get_model_from_env m),
        some (truncate_str ("Changed files:\n" ++ decodeOrEmpty no ++
          "\n\nDiff:\n" ++ decodeOrEmpty d2) MAX_DIFF_TOKENS),
        true, true, none, 0, none⟩ := by
  simp only [runMain]
  rw [if_pos hrepo]
  simp only [afterDecodes, hex, if_true, Bool.false_eq_true, if_false]

/-- Witness for C4 at a concrete environment, response and world. -/
theorem C4_confirmation_declined_aborts_witness :
    runMain ⟨some "k", none⟩ ⟨false, false, false⟩
        ⟨some (.valid "x"), some (.valid "true"), some (.valid "f"), some (.valid "x"),
          some ⟨[⟨⟨some ⟨"commit",
            some (.obj [("title", .str "T"), ("description", .str "D")])⟩⟩⟩]⟩,
          some true, none⟩ =
      ⟨.exited 1, false, true, some "gpt-4.1-nano",
        some (truncate_str "Changed files:\nf\n\nDiff:\nx" MAX_DIFF_TOKENS),
        true, true, none, 0, none⟩ := by
  have h := C4_confirmation_declined_aborts "k" none false
    (.valid "x") (.valid "true") (.valid "f") (.valid "x")
    ⟨[⟨⟨some ⟨"commit", some (.obj [("title", .str "T"), ("description", .str "D")])⟩⟩⟩]⟩
    none ⟨"T", "D"⟩ (by decide) rfl
  simpa using h

/-- C1 counterexample: a response whose only tool invocation is named
"get_diff" — so no invocation matches the declared commit tool — and whose
payload has an empty `title` and an extra field is nevertheless accepted:
the run commits (one `git commit` spawn) and exits 0, against the claim that
such a response is a fatal `MalformedResponseError` with no commit
mutation. -/
theorem C1_counterexample_name_not_checked :
    (CompletionResponse.mk [⟨⟨some ⟨"get_diff",
        some (.obj [("title", .str ""), ("description", .str "d"),
          ("extra", .num 1)])⟩⟩⟩]).choices.all
      (fun c => c.message.function_call.all (fun fc => fc.name != "commit")) = true ∧
    runMain ⟨some "k", none⟩ ⟨false, false, true⟩
        ⟨some (.valid "x"), some (.valid "true"), some (.valid "f"), some (.valid "x"),
          some ⟨[⟨⟨some ⟨"get_diff",
            some (.obj [("title", .str ""), ("description", .str "d"),
              ("extra", .num 1)])⟩⟩⟩]⟩,
          none, some ⟨0, .valid "out"⟩⟩ =
      ⟨.ok, false, true, some "gpt-4.1-nano",
        some (truncate_str "Changed files:\nf\n\nDiff:\nx" MAX_DIFF_TOKENS),
        false, false, none, 1, some "out"⟩ :=
  ⟨rfl, rfl⟩

/-- C1 (amended): the pipeline takes the function call of the response's
first choice — never checking the call's name against the declared commit
tool — and parses its argument payload as a JSON object with string fields
`title` and `description` (the title may be empty and unknown extra fields
are ignored). If the response has no choice, the first choice carries no
function call, the payload is not valid JSON, or it lacks a string `title`
or a string `description`, the run fails fatally (a panic, non-zero exit)
and no commit mutation is attempted. -/
theorem C1_extraction_failure_panics_before_commit (tok : String)
    (m : Option String) (cli : Cli) (sd ir no d2 : Utf8Out)
    (resp : CompletionResponse) (ans : Option Bool)
    (cr : Option CommitProcResult)
    (hrepo : trimWs (decodeOr ir "") = "true")
    (hex : extractCommit resp = none) :
    runMain ⟨some tok, m⟩ cli
        ⟨some sd, some ir, some no, some d2, some resp, ans, cr⟩ =
      ⟨.panicked, (decodeOrEmpty sd).isEmpty, true, some (get_model_from_env m),
        some (truncate_str ("Changed files:\n" ++ decodeOrEmpty no ++
          "\n\nDiff:\n" ++ decodeOrEmpty d2) MAX_DIFF_TOKENS),
        false, false, none, 0, none⟩ := by
  simp only [runMain]
  rw [if_pos hrepo]
  simp only [afterDecodes, hex]

/-- Witness for the amended C1: a response whose arguments omit
`description` panics before any commit. -/
theorem C1_extraction_failure_panics_before_commit_witness :
    runMain ⟨some "k", none⟩ ⟨false, false, true⟩
        ⟨some (.valid "x"), some (.valid "true"), some (.valid "f"), some (.valid "x"),
          some ⟨[⟨⟨some ⟨"commit", some (.obj [("title", .str "T")])⟩⟩⟩]⟩,
          none, none⟩ =
      ⟨.panicked, false, true, some "gpt-4.1-nano",
        some (truncate_str "Changed files:\nf\n\nDiff:\nx" MAX_DIFF_TOKENS),
        false, false, none, 0, none⟩ := by
  have h := C1_extraction_failure_panics_before_commit "k" none ⟨false, false, true⟩
    (.valid "x") (.valid "true") (.valid "f") (.valid "x")
    ⟨[⟨⟨some ⟨"commit", some (.obj [("title", .str "T")])⟩⟩⟩]⟩
    none none (by decide) rfl
  simpa using h

/-- C6: evaluation at the failing input. The spawned `git commit` exits with
status 1 (for example a failing pre-commit hook), yet the run logs the
captured output and terminates with exit status 0 — it does not print a
failure diagnostic and does not exit non-zero as the claim states (the
mutation is indeed attempted exactly once and never retried). -/
theorem C6_failed_commit_exits_zero :
    runMain ⟨some "k", none⟩ ⟨false, false, true⟩
        ⟨some (.valid "x"), some (.valid "true"), some (.valid "f"), some (.valid "x"),
          some ⟨[⟨⟨some ⟨"commit",
            some (.obj [("title", .str "T"), ("description", .str "D")])⟩⟩⟩]⟩,
          none, some ⟨1, .valid "hook failed"⟩⟩ =
      ⟨.ok, false, true, some "gpt-4.1-nano",
        some (truncate_str "Changed files:\nf\n\nDiff:\nx" MAX_DIFF_TOKENS),
        false, false, none, 1, some "hook failed"⟩ := rfl

/-- C9: when `AUTO_COMMIT_MODEL` is set to the empty string the helper
returns the empty string — the fixed default is produced only when the
variable is absent — and the empty model name is what is recorded on the
completion request whenever one is made. -/
theorem C9_empty_model_env_passed_through :
    get_model_from_env (some "") = "" ∧
    get_model_from_env none = "gpt-4.1-nano" ∧
    ∀ (tok : String) (cli : Cli) (sd ir no d2 : Utf8Out)
      (comp : Option CompletionResponse) (ans : Option Bool)
      (cr : Option CommitProcResult),
      trimWs (decodeOr ir "") = "true" →
      (runMain ⟨some tok, some ""⟩ cli
          ⟨some sd, some ir, some no, some d2, comp, ans, cr⟩).request_model =
        some "" := by
  refine ⟨rfl, rfl, ?_⟩
  intro tok cli sd ir no d2 comp ans cr h
  simp only [runMain]
  rw [if_pos h]
  exact afterDecodes_request_model ..

/-- Witness for C9 at a concrete world that reaches the request. -/
theorem C9_empty_model_env_passed_through_witness :
    (runMain ⟨some "k", some ""⟩ ⟨true, false, false⟩
        ⟨some (.valid "x"), some (.valid "true"), some (.valid "f"), some (.valid "x"),
          none, none, none⟩).request_model = some "" :=
  C9_empty_model_env_passed_through.2.2 "k" ⟨true, false, false⟩
    (.valid "x") (.valid "true") (.valid "f") (.valid "x")
    none none none (by decide)

end AutoCommit
